import Mathlib

/-!
Verification of the netvisor daemon-fleet registry and discovery-session
orchestration subsystem, shallowly embedded from the Rust source:
  * `backend/src/server/daemons/storage.rs` (`PostgresDaemonStorage`),
  * `backend/src/server/daemons/service.rs` (`DaemonService`),
  * `src/bin/server.rs` (the periodic discovery cleanup task).

The Postgres table is modelled as a list of rows; each storage operation is a
pure function from the table (plus the clock, which the Rust code reads with
`chrono::Utc::now()`) to a result and a new table.  `anyhow::Result` is
modelled with `Except`; `Option (Except ..)` has the outer `none` standing for
a panic (Rust `unwrap`).  UUIDs and IP addresses are modelled as naturals; the
`ip` column stores the serde-serialized form, here `toString`.
-/

namespace Netvisor

/-- `DaemonBase` (fields as used by `storage.rs` and `service.rs`):
connection and grouping attributes of a daemon. -/
structure DaemonBase where
  ip : Nat
  port : Nat
  host_id : Nat
  network_id : Nat
  api_key : String
deriving DecidableEq

/-- `Daemon`: identity plus timestamps plus base attributes. -/
structure Daemon where
  id : Nat
  last_seen : Int
  registered_at : Int
  base : DaemonBase
deriving DecidableEq

/-- `serde_json::to_string(&daemon.base.ip)` — serialization of the IP for the
`ip` column (injective string encoding). -/
def serializeIp (ip : Nat) : String := toString ip

/-- Decimal value of a digit character. -/
def digitVal (c : Char) : Option Nat :=
  if c == '0' then some 0 else if c == '1' then some 1
  else if c == '2' then some 2 else if c == '3' then some 3
  else if c == '4' then some 4 else if c == '5' then some 5
  else if c == '6' then some 6 else if c == '7' then some 7
  else if c == '8' then some 8 else if c == '9' then some 9 else none

/-- Accumulating decimal parse; any non-digit character fails. -/
def parseDecAux : List Char → Nat → Option Nat
  | [], acc => some acc
  | c :: cs, acc =>
    match digitVal c with
    | none => none
    | some v => parseDecAux cs (acc * 10 + v)

/-- `serde_json::from_str` on the stored `ip` column; `none` is a
deserialization failure (inverse of `serializeIp` on its image). -/
def deserializeIp (s : String) : Option Nat :=
  match s.toList with
  | [] => none
  | c :: cs => parseDecAux (c :: cs) 0

/-- One row of the `daemons` table, with the column types the SQL uses:
`ip` is the serialized string, `port` is an `i32`. -/
structure DaemonRow where
  id : Nat
  host_id : Nat
  ip : String
  port : Int
  last_seen : Int
  registered_at : Int
  network_id : Nat
  api_key : String
deriving DecidableEq

/-- Errors surfaced by the storage layer.  The Rust code returns
`anyhow::Result`; a failed INSERT propagates the engine's error unmapped via
`?`.  A Postgres unique-constraint violation is its own error variant
(SQLSTATE 23505), distinct from other engine failures, which is what
`uniqueViolation` models. -/
inductive DbErr where
  | uniqueViolation
  | engineOther (msg : String)
deriving DecidableEq

/-- The row that `PostgresDaemonStorage::create` INSERTs for daemon `d` at
time `now`: note that both `last_seen` and `registered_at` are bound to
`chrono::Utc::now()`, not to the daemon's own fields (storage.rs lines 44-51). -/
def createdRow (d : Daemon) (now : Int) : DaemonRow :=
  { id := d.id, host_id := d.base.host_id, ip := serializeIp d.base.ip,
    port := (d.base.port : Int), last_seen := now, registered_at := now,
    network_id := d.base.network_id, api_key := d.base.api_key }

/-- Collision check the engine performs on INSERT.  Modelled from the spec:
the SQL schema is not part of the shown source; section 6 of the design
declares `id`, `host_id` and `api_key` unique columns, so the engine rejects
an INSERT colliding on any of them with a unique-violation error. -/
def hasKeyCollision (db : List DaemonRow) (d : Daemon) : Bool :=
  db.any fun r => r.id == d.id || r.host_id == d.base.host_id || r.api_key == d.base.api_key

/-- `PostgresDaemonStorage::create`: INSERT of `createdRow d now`; on a key
collision the engine error propagates via `?` (storage.rs lines 33-56). -/
def create (db : List DaemonRow) (d : Daemon) (now : Int) :
    Except DbErr (List DaemonRow) :=
  if hasKeyCollision db d then .error .uniqueViolation
  else .ok (db ++ [createdRow d now])

/-- `DaemonService::register_daemon`: delegates to `create` and returns the
*argument* daemon unchanged (service.rs lines 33-36). -/
def register_daemon (db : List DaemonRow) (d : Daemon) (now : Int) :
    Except DbErr (List DaemonRow × Daemon) :=
  match create db d now with
  | .error e => .error e
  | .ok db2 => .ok (db2, d)

/-- The effect of the UPDATE statement in `PostgresDaemonStorage::update` on a
single row: only `host_id`, `ip`, `port`, `last_seen` are in the SET list
(storage.rs lines 115-126); `network_id`, `api_key`, `registered_at` keep
their stored values. -/
def updateRow (d : Daemon) (r : DaemonRow) : DaemonRow :=
  if r.id == d.id then
    { r with host_id := d.base.host_id, ip := serializeIp d.base.ip,
             port := (d.base.port : Int), last_seen := d.last_seen }
  else r

/-- `PostgresDaemonStorage::update`: runs the UPDATE (matching zero or more
rows), never inspects the affected-row count, and returns a clone of the
argument (storage.rs lines 112-131). -/
def update (db : List DaemonRow) (d : Daemon) :
    Except DbErr (List DaemonRow × Daemon) :=
  .ok (db.map (updateRow d), d)

/-- `DaemonService::receive_heartbeat`: overwrites `last_seen` with
`chrono::Utc::now()` and persists through `update` (service.rs lines 65-69). -/
def receive_heartbeat (db : List DaemonRow) (d : Daemon) (now : Int) :
    Except DbErr (List DaemonRow × Daemon) :=
  update db { d with last_seen := now }

/-- `row_to_daemon` (storage.rs lines 143-159).  The IP column is
deserialized first, failing with a returned error message; then the `i32`
port is converted with `try_into().unwrap()`, which *panics* (outer `none`)
whenever the stored value is outside `0..=65535`. -/
def row_to_daemon (row : DaemonRow) : Option (Except String Daemon) :=
  match deserializeIp row.ip with
  | none => some (.error "Failed to deserialize IP")
  | some ipv =>
    if 0 ≤ row.port ∧ row.port ≤ 65535 then
      some (.ok { id := row.id, last_seen := row.last_seen,
                  registered_at := row.registered_at,
                  base := { ip := ipv, port := row.port.toNat,
                            host_id := row.host_id,
                            network_id := row.network_id,
                            api_key := row.api_key } })
    else none

/-- Total version of the row conversion, meaningful on well-formed rows. -/
def rowConv (r : DaemonRow) : Daemon :=
  { id := r.id, last_seen := r.last_seen, registered_at := r.registered_at,
    base := { ip := (deserializeIp r.ip).getD 0, port := r.port.toNat,
              host_id := r.host_id, network_id := r.network_id,
              api_key := r.api_key } }

/-- A stored row is well formed when its IP deserializes and its port is in
the `u16` range. -/
def rowWF (r : DaemonRow) : Prop :=
  (deserializeIp r.ip).isSome = true ∧ 0 ≤ r.port ∧ r.port ≤ 65535

instance (r : DaemonRow) : Decidable (rowWF r) :=
  inferInstanceAs (Decidable ((deserializeIp r.ip).isSome = true
    ∧ 0 ≤ r.port ∧ r.port ≤ 65535))

/-- `get_by_id` (storage.rs lines 58-68): SELECT by id then `row_to_daemon`. -/
def get_by_id (db : List DaemonRow) (i : Nat) :
    Option (Except String (Option Daemon)) :=
  match db.find? (fun r => r.id == i) with
  | none => some (.ok none)
  | some r =>
    match row_to_daemon r with
    | none => none
    | some (.error e) => some (.error e)
    | some (.ok d) => some (.ok (some d))

/-- The `for row in rows { daemons.push(row_to_daemon(row)?) }` loop of
`get_all`: the first error returns, a panic aborts everything. -/
def rowsToDaemons : List DaemonRow → Option (Except String (List Daemon))
  | [] => some (.ok [])
  | r :: rs =>
    match row_to_daemon r with
    | none => none
    | some (.error e) => some (.error e)
    | some (.ok d) =>
      match rowsToDaemons rs with
      | none => none
      | some (.error e) => some (.error e)
      | some (.ok ds) => some (.ok (d :: ds))

/-- The comparison `ORDER BY registered_at DESC` sorts by. -/
def regDescLe (a b : DaemonRow) : Bool := decide (b.registered_at ≤ a.registered_at)

/-- Result order of `SELECT .. WHERE network_id = ANY($1) ORDER BY
registered_at DESC` (storage.rs line 95): the matching rows sorted newest
first (ties in unspecified engine order; the model picks one valid order). -/
def sqlSelectDesc (db : List DaemonRow) (network_ids : List Nat) : List DaemonRow :=
  (db.filter fun r => network_ids.contains r.network_id).mergeSort regDescLe

/-- `PostgresDaemonStorage::get_all` (storage.rs lines 94-110). -/
def get_all (db : List DaemonRow) (network_ids : List Nat) :
    Option (Except String (List Daemon)) :=
  rowsToDaemons (sqlSelectDesc db network_ids)

/-! ## DaemonService dispatch calls (service.rs lines 77-149)

The outbound HTTP exchange is modelled by the response the transport hands
back: `none` is a reqwest send error (connection failure / transport timeout),
`some r` a response with an HTTP status and, if it decodes, the JSON envelope
`ApiResponse` from `shared/types/api.rs`. -/

/-- The `ApiResponse` envelope `\x7b success, error, data \x7d`; `data` is
irrelevant to the control flow and omitted. -/
structure ApiResponse where
  success : Bool
  error : Option String
deriving DecidableEq

/-- A received HTTP response: status code plus decoded body (`none` when
`response.json()` fails). -/
structure HttpResponse where
  status : Nat
  body : Option ApiResponse
deriving DecidableEq

/-- `reqwest::StatusCode::is_success`: 2xx. -/
def statusIsSuccess (s : Nat) : Bool := 200 ≤ s && s < 300

/-- `DaemonService::send_discovery_request` (service.rs lines 77-119):
transport error propagates; a non-2xx status fails with a message naming only
the status; a decoded envelope with `success = false` fails with a message
naming the daemon id (not the session id); otherwise ok. -/
def send_discovery_request (daemonId : Nat) (sessionId : Nat)
    (resp : Option HttpResponse) : Except String Unit :=
  match resp with
  | none => .error "reqwest send error"
  | some r =>
    if statusIsSuccess r.status then
      match r.body with
      | none => .error "error decoding response body"
      | some api =>
        if api.success then .ok ()
        else .error ("Failed to send discovery request to daemon "
                     ++ toString daemonId ++ ": "
                     ++ api.error.getD "Unknown error")
    else .error ("Failed to send discovery request: HTTP " ++ toString r.status)

/-- `DaemonService::send_discovery_cancellation` (service.rs lines 121-149):
transport error propagates; a non-2xx status fails; on a 2xx status it
returns `Ok(())` immediately — the response body is never read, so the
envelope's `success` flag is not consulted. -/
def send_discovery_cancellation (daemonId : Nat) (sessionId : Nat)
    (resp : Option HttpResponse) : Except String Unit :=
  match resp with
  | none => .error "reqwest send error"
  | some r =>
    if statusIsSuccess r.status then .ok ()
    else .error ("Failed to send discovery cancellation to daemon "
                 ++ toString daemonId ++ ": HTTP " ++ toString r.status)

/-- Does the character list start with the pattern? -/
def startsWithChars : List Char → List Char → Bool
  | [], _ => true
  | _ :: _, [] => false
  | p :: ps, c :: cs => p == c && startsWithChars ps cs

/-- Does the pattern occur contiguously in the character list? -/
def containsChars (pat : List Char) : List Char → Bool
  | [] => startsWithChars pat []
  | c :: cs => startsWithChars pat (c :: cs) || containsChars pat cs

/-- Substring test, used to state which identifiers an error message
includes. -/
def strContains (s pat : String) : Bool := containsChars pat.toList s.toList

/-! ## Discovery sessions and the periodic cleanup task -/

/-- Session states of section 4.3 of the design. -/
inductive SessionState where
  | Pending
  | Dispatched
  | Running
  | Completed
  | Failed
  | Cancelled
  | TimedOut
deriving DecidableEq

/-- The four terminal states. -/
def SessionState.isTerminal : SessionState → Bool
  | .Completed => true
  | .Failed => true
  | .Cancelled => true
  | .TimedOut => true
  | _ => false

/-- A discovery session entry: target daemon, state, creation time
(seconds). -/
structure Session where
  id : Nat
  daemon_id : Nat
  state : SessionState
  created_at : Int
deriving DecidableEq

/-- Modelled from the spec: `DiscoverySessionManager::check_timeouts(minutes)`
is not part of the shown source; per section 4.4 the timeout sweep transitions
every still-non-terminal session older than the running-time ceiling to
`TimedOut`. -/
def check_timeouts (minutes : Int) (now : Int) (tbl : List Session) : List Session :=
  tbl.map fun s =>
    if !s.state.isTerminal && decide (now - s.created_at > minutes * 60)
    then { s with state := .TimedOut } else s

/-- Modelled from the spec:
`DiscoverySessionManager::cleanup_old_sessions(hours)` is not part of the
shown source; per section 4.4 the retention sweep evicts every terminal
session older than the retention window. -/
def cleanup_old_sessions (hours : Int) (now : Int) (tbl : List Session) : List Session :=
  tbl.filter fun s =>
    !(s.state.isTerminal && decide (now - s.created_at > hours * 3600))

/-- One tick of the discovery cleanup task spawned in `src/bin/server.rs`
(lines 77-88): the `check_timeouts(10)` call is commented out in the source,
so a tick runs only `cleanup_old_sessions(24)`. -/
def cleanup_tick (now : Int) (tbl : List Session) : List Session :=
  cleanup_old_sessions 24 now tbl

/-- The tick interval of the cleanup task:
`tokio::time::Duration::from_secs(300)` (server.rs line 78). -/
def cleanup_interval_secs : Nat := 300

/-! ## Helper lemmas -/

theorem updateRow_of_ne (d : Daemon) (r : DaemonRow) (h : r.id ≠ d.id) :
    updateRow d r = r := by
  simp [updateRow, h]

theorem updateRow_of_eq (d : Daemon) (r : DaemonRow) (h : r.id = d.id) :
    updateRow d r =
      { r with host_id := d.base.host_id, ip := serializeIp d.base.ip,
               port := (d.base.port : Int), last_seen := d.last_seen } := by
  simp [updateRow, h]

theorem map_updateRow_of_absent (d : Daemon) (db : List DaemonRow)
    (habs : ∀ r ∈ db, r.id ≠ d.id) : db.map (updateRow d) = db := by
  induction db with
  | nil => rfl
  | cons r rs ih =>
    simp only [List.map_cons]
    rw [updateRow_of_ne d r (habs r (by simp)),
        ih fun x hx => habs x (by simp [hx])]

theorem last_seen_mem_map_updateRow (d : Daemon) (db : List DaemonRow)
    (r : DaemonRow) (hr : r ∈ db.map (updateRow d)) (hid : r.id = d.id) :
    r.last_seen = d.last_seen := by
  obtain ⟨r0, hr0, rfl⟩ := List.mem_map.mp hr
  by_cases h : r0.id = d.id
  · rw [updateRow_of_eq d r0 h]
  · rw [updateRow_of_ne d r0 h] at hid ⊢
    exact absurd hid h

theorem updateRow_idem (d : Daemon) (r : DaemonRow) :
    updateRow d (updateRow d r) = updateRow d r := by
  unfold updateRow
  by_cases h : r.id = d.id
  · simp [h]
  · simp [h]

/-- Sample daemon used for concrete evaluations. -/
def dEx : Daemon :=
  { id := 1, last_seen := 0, registered_at := 0,
    base := { ip := 5, port := 80, host_id := 2, network_id := 3,
              api_key := "key-a" } }

/-- Sample stored row (id matches `dEx2`). -/
def rEx : DaemonRow :=
  { id := 1, host_id := 2, ip := "5", port := 80, last_seen := 0,
    registered_at := 0, network_id := 3, api_key := "key-a" }

/-- Sample daemon sharing id 1 but with different grouping and credential. -/
def dEx2 : Daemon :=
  { id := 1, last_seen := 7, registered_at := 7,
    base := { ip := 6, port := 81, host_id := 2, network_id := 9,
              api_key := "key-b" } }

/-- Sample daemon colliding with `dEx` on `host_id` only. -/
def dColl : Daemon :=
  { id := 10, last_seen := 0, registered_at := 0,
    base := { ip := 8, port := 82, host_id := 2, network_id := 3,
              api_key := "key-c" } }

/-! ## C2: cancellation does not check the application-level success flag -/

/-- C2 counterexample: a cancellation response with HTTP 200 but
`success = false` in the envelope still returns `Ok(())`, while the same
response makes `send_discovery_request` fail — the dual-layer contract does
not hold for cancellation. -/
theorem C2_counterexample :
    send_discovery_cancellation 1 2
        (some { status := 200,
                body := some { success := false, error := some "remote failure" } })
      = .ok ()
    ∧ send_discovery_request 1 2
        (some { status := 200,
                body := some { success := false, error := some "remote failure" } })
      = .error ("Failed to send discovery request to daemon " ++ toString (1 : Nat)
                ++ ": " ++ "remote failure") := by
  exact ⟨rfl, rfl⟩

/-- C2 (amended): `send_discovery_cancellation` succeeds exactly when a
transport-level response arrived with an HTTP status in the success range;
the response envelope (and its `success` flag) is never consulted. -/
theorem C2_cancellation_checks_status_only (d sid : Nat) (resp : Option HttpResponse) :
    send_discovery_cancellation d sid resp = .ok () ↔
      ∃ r, resp = some r ∧ statusIsSuccess r.status = true := by
  cases resp with
  | none => simp [send_discovery_cancellation]
  | some r =>
    by_cases h : statusIsSuccess r.status
    · simp [send_discovery_cancellation, h]
    · simp [send_discovery_cancellation, h]

/-! ## C3: update never reports NotFound -/

/-- C3 counterexample: the store is empty, so id 1 does not exist, yet
`update` succeeds (it runs the UPDATE, ignores the affected-row count and
returns a clone of the argument) — it never fails with `NotFound`. -/
theorem C3_counterexample :
    update [] dEx = .ok ([], dEx) ∧ ∀ e : DbErr, update [] dEx ≠ .error e := by
  exact ⟨rfl, fun e h => by cases h⟩

/-- C3 (amended): `update` succeeds unconditionally; when no stored row
carries the daemon's id it is a no-op on the table and still returns the
argument daemon — there is no `NotFound` path. -/
theorem C3_update_never_notfound (db : List DaemonRow) (d : Daemon)
    (habs : ∀ r ∈ db, r.id ≠ d.id) :
    update db d = .ok (db, d)
    ∧ ∀ (db2 : List DaemonRow) (d2 : Daemon), ∃ out, update db2 d2 = .ok out := by
  refine ⟨?_, fun db2 d2 => ⟨_, rfl⟩⟩
  unfold update
  rw [map_updateRow_of_absent d db habs]

/-- C3 witness. -/
theorem C3_witness :
    update [] dEx = .ok ([], dEx)
    ∧ ∀ (db2 : List DaemonRow) (d2 : Daemon), ∃ out, update db2 d2 = .ok out :=
  C3_update_never_notfound [] dEx (by simp)

/-! ## C4: update replaces only host_id, ip, port, last_seen -/

/-- C4 counterexample: updating daemon id 1 with `network_id = 9` and
`api_key = "key-b"` leaves the stored row's `network_id = 3` and
`api_key = "key-a"` — the UPDATE's SET list does not include those columns,
so the stored record does not equal the argument in every mutable field. -/
theorem C4_counterexample :
    update [rEx] dEx2
      = .ok ([{ id := 1, host_id := 2, ip := "6", port := 81, last_seen := 7,
                registered_at := 0, network_id := 3, api_key := "key-a" }], dEx2)
    ∧ dEx2.base.network_id = 9 ∧ dEx2.base.api_key = "key-b" := by
  exact ⟨rfl, rfl, rfl⟩

/-- C4 (amended): on a matching row, `update` replaces exactly `host_id`,
`ip`, `port` and `last_seen` with the argument's values; `network_id`,
`api_key` and `registered_at` keep their stored values. -/
theorem C4_update_partial_replace (db : List DaemonRow) (d : Daemon)
    (r : DaemonRow) (hr : r ∈ db) (hid : r.id = d.id) :
    ∃ db2, update db d = .ok (db2, d)
      ∧ { r with host_id := d.base.host_id, ip := serializeIp d.base.ip,
                 port := (d.base.port : Int), last_seen := d.last_seen } ∈ db2 := by
  refine ⟨db.map (updateRow d), rfl, ?_⟩
  rw [← updateRow_of_eq d r hid]
  exact List.mem_map_of_mem _ hr

/-- C4 witness. -/
theorem C4_witness :
    ∃ db2, update [rEx] dEx2 = .ok (db2, dEx2)
      ∧ { rEx with host_id := dEx2.base.host_id, ip := serializeIp dEx2.base.ip,
                   port := (dEx2.base.port : Int), last_seen := dEx2.last_seen } ∈ db2 :=
  C4_update_partial_replace [rEx] dEx2 rEx (by simp) rfl

/-! ## C5: register_daemon returns its argument, not the stored record -/

/-- C5 counterexample: registering `dEx` (whose `last_seen` and
`registered_at` are 0) at time 5 stores a row with
`last_seen = registered_at = 5` but returns `dEx` unchanged — the returned
daemon differs from the stored record in both timestamp fields. -/
theorem C5_counterexample :
    register_daemon [] dEx 5 = .ok ([createdRow dEx 5], dEx)
    ∧ (createdRow dEx 5).last_seen = 5 ∧ dEx.last_seen = 0
    ∧ (createdRow dEx 5).registered_at = 5 ∧ dEx.registered_at = 0 := by
  exact ⟨rfl, rfl, rfl, rfl, rfl⟩

/-- C5 (amended): a successful `register_daemon` returns the *argument*
daemon; the stored row agrees with it on id, host_id, ip, port, network_id
and api_key, but its `last_seen` and `registered_at` are the insertion time
(`Utc::now()`), not the argument's values. -/
theorem C5_register_returns_argument (db : List DaemonRow) (d : Daemon)
    (now : Int) (h : hasKeyCollision db d = false) :
    register_daemon db d now = .ok (db ++ [createdRow d now], d)
    ∧ (createdRow d now).last_seen = now
    ∧ (createdRow d now).registered_at = now
    ∧ (createdRow d now).id = d.id
    ∧ (createdRow d now).host_id = d.base.host_id
    ∧ (createdRow d now).ip = serializeIp d.base.ip
    ∧ (createdRow d now).port = (d.base.port : Int)
    ∧ (createdRow d now).network_id = d.base.network_id
    ∧ (createdRow d now).api_key = d.base.api_key := by
  refine ⟨?_, rfl, rfl, rfl, rfl, rfl, rfl, rfl, rfl⟩
  simp [register_daemon, create, h]

/-- C5 witness. -/
theorem C5_witness :
    register_daemon [] dEx 5 = .ok ([] ++ [createdRow dEx 5], dEx)
    ∧ (createdRow dEx 5).last_seen = 5
    ∧ (createdRow dEx 5).registered_at = 5
    ∧ (createdRow dEx 5).id = dEx.id
    ∧ (createdRow dEx 5).host_id = dEx.base.host_id
    ∧ (createdRow dEx 5).ip = serializeIp dEx.base.ip
    ∧ (createdRow dEx 5).port = (dEx.base.port : Int)
    ∧ (createdRow dEx 5).network_id = dEx.base.network_id
    ∧ (createdRow dEx 5).api_key = dEx.base.api_key :=
  C5_register_returns_argument [] dEx 5 rfl

/-! ## C1: the cleanup tick runs only the retention sweep -/

/-- An overdue, still-pending sample session. -/
def sOverdue : Session :=
  { id := 1, daemon_id := 2, state := .Pending, created_at := 0 }

/-- C1 counterexample: at time 3600 s the pending session `sOverdue` is one
hour old — far past the 10-minute running-time ceiling — yet a tick of the
cleanup task leaves it untouched (still `Pending`), because the
`check_timeouts(10)` call is commented out in `src/bin/server.rs`; the
timeout sweep, had it run, would have made it `TimedOut`. -/
theorem C1_counterexample :
    cleanup_tick 3600 [sOverdue] = [sOverdue]
    ∧ sOverdue.state ≠ SessionState.TimedOut
    ∧ (3600 : Int) - sOverdue.created_at > 10 * 60
    ∧ check_timeouts 10 3600 [sOverdue]
        = [{ sOverdue with state := .TimedOut }] := by
  refine ⟨rfl, by decide, by decide, rfl⟩

/-- C1 (amended): each tick of the 5-minute (300 s) cleanup task performs
only the retention sweep: a session survives the tick iff it is not
(terminal and older than the 24-hour retention window), and every surviving
session appears verbatim (no state is ever changed, so no session is moved
to `TimedOut`). -/
theorem C1_tick_is_retention_sweep_only (now : Int) (tbl : List Session)
    (s : Session) (hs : s ∈ tbl) :
    (s ∈ cleanup_tick now tbl ↔
      ¬(s.state.isTerminal = true ∧ now - s.created_at > 24 * 3600))
    ∧ (∀ t ∈ cleanup_tick now tbl, t ∈ tbl)
    ∧ cleanup_interval_secs = 300 := by
  refine ⟨?_, fun t ht => List.mem_of_mem_filter ht, rfl⟩
  unfold cleanup_tick cleanup_old_sessions
  rw [List.mem_filter]
  simp only [hs, true_and, Bool.not_eq_true', Bool.and_eq_false_iff,
    decide_eq_false_iff_not, not_lt, not_and, Bool.not_eq_true]
  constructor
  · rintro (h | h) ht
    · rw [ht] at h; exact absurd h (by simp)
    · omega
  · intro h
    by_cases ht : s.state.isTerminal
    · exact Or.inr (by have := h ht; omega)
    · exact Or.inl (by simpa using ht)

/-- C1 witness. -/
theorem C1_witness :
    ((sOverdue ∈ cleanup_tick 3600 [sOverdue]) ↔
      ¬(sOverdue.state.isTerminal = true ∧ (3600 : Int) - sOverdue.created_at > 24 * 3600))
    ∧ (∀ t ∈ cleanup_tick 3600 [sOverdue], t ∈ [sOverdue])
    ∧ cleanup_interval_secs = 300 :=
  C1_tick_is_retention_sweep_only 3600 [sOverdue] sOverdue (by simp)

/-! ## C6: registration conflict on a colliding key -/

/-- C6: after a successful registration of `d`, a second registration whose
id, host_id or api_key collides with `d`'s fails with the engine's
unique-violation error — a variant distinct from every other engine error —
and the row created for `d` is still in the table. -/
theorem C6_register_conflict (db db2 : List DaemonRow) (d d2 : Daemon)
    (now now2 : Int)
    (h1 : register_daemon db d now = .ok (db2, d))
    (hcoll : d2.id = d.id ∨ d2.base.host_id = d.base.host_id
             ∨ d2.base.api_key = d.base.api_key) :
    register_daemon db2 d2 now2 = .error .uniqueViolation
    ∧ createdRow d now ∈ db2
    ∧ ∀ m, (DbErr.uniqueViolation : DbErr) ≠ .engineOther m := by
  have hdb2 : db2 = db ++ [createdRow d now] := by
    unfold register_daemon create at h1
    by_cases hc : hasKeyCollision db d
    · rw [if_pos hc] at h1
      exact Except.noConfusion h1
    · rw [if_neg hc] at h1
      simp only [Except.ok.injEq, Prod.mk.injEq] at h1
      exact h1.1.symm
  have hmem : createdRow d now ∈ db2 := by
    rw [hdb2]; simp
  have hc2 : hasKeyCollision db2 d2 = true := by
    unfold hasKeyCollision
    rw [List.any_eq_true]
    refine ⟨createdRow d now, hmem, ?_⟩
    rcases hcoll with h | h | h <;> simp [createdRow, h]
  refine ⟨?_, hmem, fun m h => DbErr.noConfusion h⟩
  simp [register_daemon, create, hc2]

/-- C6 witness: `dColl` collides with `dEx` on `host_id` (both 2). -/
theorem C6_witness :
    register_daemon [createdRow dEx 5] dColl 6 = .error .uniqueViolation
    ∧ createdRow dEx 5 ∈ [createdRow dEx 5]
    ∧ ∀ m, (DbErr.uniqueViolation : DbErr) ≠ .engineOther m :=
  C6_register_conflict [] [createdRow dEx 5] dEx dColl 5 6 rfl
    (Or.inr (Or.inl rfl))

/-! ## C8: dispatch success contract and error contents -/

/-- C8 counterexample: with daemon id 9 and session id 8, an HTTP 500
response yields the error "Failed to send discovery request: HTTP 500",
which contains neither "9" nor "8"; an application-level failure yields
"Failed to send discovery request to daemon 9: boom", which contains the
daemon id but not the session id — so neither failure mode includes both
correlation ids. -/
theorem C8_counterexample :
    send_discovery_request 9 8 (some { status := 500, body := none })
      = .error "Failed to send discovery request: HTTP 500"
    ∧ strContains "Failed to send discovery request: HTTP 500" (toString (9 : Nat)) = false
    ∧ strContains "Failed to send discovery request: HTTP 500" (toString (8 : Nat)) = false
    ∧ send_discovery_request 9 8
        (some { status := 200, body := some { success := false, error := some "boom" } })
      = .error "Failed to send discovery request to daemon 9: boom"
    ∧ strContains "Failed to send discovery request to daemon 9: boom"
        (toString (8 : Nat)) = false := by
  refine ⟨rfl, by decide, by decide, rfl, by decide⟩

/-- C8 (amended): `send_discovery_request` succeeds iff a transport response
arrived with a 2xx status and a decodable envelope whose `success` flag is
true; a non-2xx status fails with a message naming only the HTTP status
(neither the daemon id nor the session id), and an application-level
rejection fails with a message naming the daemon id but not the session id. -/
theorem C8_dispatch_contract (did sid : Nat) (resp : Option HttpResponse) :
    (send_discovery_request did sid resp = .ok () ↔
      ∃ r api, resp = some r ∧ statusIsSuccess r.status = true
        ∧ r.body = some api ∧ api.success = true)
    ∧ (∀ r, resp = some r → statusIsSuccess r.status = false →
        send_discovery_request did sid resp
          = .error ("Failed to send discovery request: HTTP " ++ toString r.status))
    ∧ (∀ r api, resp = some r → r.body = some api →
        statusIsSuccess r.status = true → api.success = false →
        send_discovery_request did sid resp
          = .error ("Failed to send discovery request to daemon " ++ toString did
                    ++ ": " ++ api.error.getD "Unknown error")) := by
  refine ⟨?_, ?_, ?_⟩
  · cases resp with
    | none => simp [send_discovery_request]
    | some r =>
      by_cases hst : statusIsSuccess r.status
      · cases hb : r.body with
        | none => simp [send_discovery_request, hst, hb]
        | some api =>
          by_cases hsu : api.success
          · simp [send_discovery_request, hst, hb, hsu]
          · simp [send_discovery_request, hst, hb, hsu]
      · simp [send_discovery_request, hst]
  · rintro r rfl hst
    simp [send_discovery_request, hst]
  · rintro r api rfl hb hst hsu
    simp [send_discovery_request, hst, hb, hsu]

/-- C8 witness. -/
theorem C8_witness :
    send_discovery_request 9 8 (some { status := 404, body := none })
      = .error ("Failed to send discovery request: HTTP "
                ++ toString (404 : Nat)) :=
  (C8_dispatch_contract 9 8 (some { status := 404, body := none })).2.1
    { status := 404, body := none } rfl (by decide)

/-! ## C10: row conversion panics on an out-of-range port -/

/-- C10: `row_to_daemon` is total (no panic) whenever the stored port lies in
`0..=65535`; when the port is out of range and the IP column deserializes,
the `try_into().unwrap()` panics (`none`) instead of returning an error, and
the panic propagates through `get_by_id`. -/
theorem C10_port_unwrap_panics (r : DaemonRow) :
    (0 ≤ r.port ∧ r.port ≤ 65535 → (row_to_daemon r).isSome = true)
    ∧ ((r.port < 0 ∨ 65535 < r.port) → (deserializeIp r.ip).isSome = true →
        row_to_daemon r = none
        ∧ (∀ e, row_to_daemon r ≠ some (.error e))
        ∧ get_by_id [r] r.id = none) := by
  constructor
  · intro h
    unfold row_to_daemon
    cases hm : deserializeIp r.ip with
    | none => simp
    | some v => simp [h]
  · intro hbad hip
    have hnone : row_to_daemon r = none := by
      unfold row_to_daemon
      cases hm : deserializeIp r.ip with
      | none => rw [hm] at hip; simp at hip
      | some v =>
        have hn : ¬(0 ≤ r.port ∧ r.port ≤ 65535) := by omega
        simp [hn]
    refine ⟨hnone, fun e he => by rw [hnone] at he; exact Option.noConfusion he, ?_⟩
    unfold get_by_id
    have hfind : List.find? (fun x => x.id == r.id) [r] = some r := by simp
    rw [hfind]
    simp [hnone]

/-- C10 witness: a row with port 70000 (IP column "5" deserializes fine)
makes `row_to_daemon` panic, while the well-formed `rEx` converts. -/
theorem C10_witness :
    (row_to_daemon { id := 4, host_id := 5, ip := "5", port := 70000,
                     last_seen := 0, registered_at := 0, network_id := 6,
                     api_key := "key-d" } = none
     ∧ (∀ e, row_to_daemon { id := 4, host_id := 5, ip := "5", port := 70000,
                             last_seen := 0, registered_at := 0, network_id := 6,
                             api_key := "key-d" } ≠ some (.error e))
     ∧ get_by_id [{ id := 4, host_id := 5, ip := "5", port := 70000,
                    last_seen := 0, registered_at := 0, network_id := 6,
                    api_key := "key-d" }] 4 = none)
    ∧ (row_to_daemon rEx).isSome = true :=
  ⟨(C10_port_unwrap_panics _).2 (by decide) (by decide),
   (C10_port_unwrap_panics rEx).1 (by decide)⟩

/-! ## C9: heartbeat sets, persists and never decreases last_seen -/

/-- C9: `receive_heartbeat` overwrites `last_seen` with the current clock
reading and persists it through `update`; across two successive calls whose
clock readings satisfy `t1 ≤ t2`, the persisted `last_seen` never decreases;
the second call changes only the timestamp of the returned daemon, and two
calls at the same instant have exactly the effect of one. -/
theorem C9_heartbeat_monotone (db : List DaemonRow) (d : Daemon)
    (t1 t2 : Int) (h : t1 ≤ t2) :
    ∃ db1 d1 db2 d2,
      receive_heartbeat db d t1 = .ok (db1, d1)
      ∧ d1.last_seen = t1
      ∧ (∀ r ∈ db1, r.id = d.id → r.last_seen = t1)
      ∧ receive_heartbeat db1 d1 t2 = .ok (db2, d2)
      ∧ d2.last_seen = t2
      ∧ d1.last_seen ≤ d2.last_seen
      ∧ (∀ r ∈ db2, r.id = d.id → r.last_seen = t2)
      ∧ { d2 with last_seen := d1.last_seen } = d1
      ∧ (t1 = t2 → db2 = db1 ∧ d2 = d1) := by
  refine ⟨db.map (updateRow { d with last_seen := t1 }),
    { d with last_seen := t1 },
    (db.map (updateRow { d with last_seen := t1 })).map
      (updateRow { d with last_seen := t2 }),
    { d with last_seen := t2 }, rfl, rfl, ?_, rfl, rfl, h, ?_, rfl, ?_⟩
  · intro r hr hid
    exact last_seen_mem_map_updateRow { d with last_seen := t1 } db r hr hid
  · intro r hr hid
    exact last_seen_mem_map_updateRow { d with last_seen := t2 } _ r hr hid
  · rintro rfl
    refine ⟨?_, rfl⟩
    rw [List.map_map]
    exact List.map_congr_left fun r hr => updateRow_idem _ r

/-- C9 witness. -/
theorem C9_witness :
    ∃ db1 d1 db2 d2,
      receive_heartbeat [rEx] dEx 1 = .ok (db1, d1)
      ∧ d1.last_seen = 1
      ∧ (∀ r ∈ db1, r.id = dEx.id → r.last_seen = 1)
      ∧ receive_heartbeat db1 d1 2 = .ok (db2, d2)
      ∧ d2.last_seen = 2
      ∧ d1.last_seen ≤ d2.last_seen
      ∧ (∀ r ∈ db2, r.id = dEx.id → r.last_seen = 2)
      ∧ { d2 with last_seen := d1.last_seen } = d1
      ∧ ((1 : Int) = 2 → db2 = db1 ∧ d2 = d1) :=
  C9_heartbeat_monotone [rEx] dEx 1 2 (by decide)

/-! ## C7: get_all filters by network id and sorts newest first -/

theorem rowConv_of_WF (r : DaemonRow) (h : rowWF r) :
    row_to_daemon r = some (.ok (rowConv r)) := by
  obtain ⟨hip, hlo, hhi⟩ := h
  unfold row_to_daemon rowConv
  cases hm : deserializeIp r.ip with
  | none => rw [hm] at hip; simp at hip
  | some v => simp [hlo, hhi]

theorem rowsToDaemons_of_WF (rows : List DaemonRow)
    (h : ∀ r ∈ rows, rowWF r) :
    rowsToDaemons rows = some (.ok (rows.map rowConv)) := by
  induction rows with
  | nil => rfl
  | cons r rs ih =>
    simp only [rowsToDaemons, List.map_cons]
    rw [rowConv_of_WF r (h r (by simp)), ih fun x hx => h x (by simp [hx])]

/-- C7: on a table of well-formed rows, `get_all` returns exactly the
daemons whose `network_id` is in the given set — the result is a
permutation of the converted filtered rows, membership is characterized by
the filter, and the list is sorted by `registered_at` descending. -/
theorem C7_get_all_filter_sorted (db : List DaemonRow) (ids : List Nat)
    (hwf : ∀ r ∈ db, rowWF r) :
    ∃ ds, get_all db ids = some (.ok ds)
      ∧ ds.Perm ((db.filter fun r => ids.contains r.network_id).map rowConv)
      ∧ List.Pairwise (fun a b => b.registered_at ≤ a.registered_at) ds
      ∧ ∀ x : Daemon, x ∈ ds ↔
          ∃ r ∈ db, ids.contains r.network_id = true ∧ x = rowConv r := by
  have hwf2 : ∀ r ∈ sqlSelectDesc db ids, rowWF r := by
    intro r hr
    unfold sqlSelectDesc at hr
    rw [List.mem_mergeSort] at hr
    exact hwf r (List.mem_of_mem_filter hr)
  refine ⟨(sqlSelectDesc db ids).map rowConv, ?_, ?_, ?_, ?_⟩
  · exact rowsToDaemons_of_WF _ hwf2
  · exact (List.mergeSort_perm _ regDescLe).map rowConv
  · have hp : List.Pairwise (fun a b => regDescLe a b = true)
        (sqlSelectDesc db ids) := by
      unfold sqlSelectDesc
      apply List.sorted_mergeSort
      · intro a b c hab hbc
        simp only [regDescLe, decide_eq_true_eq] at hab hbc ⊢
        omega
      · intro a b
        simp only [regDescLe, Bool.or_eq_true, decide_eq_true_eq]
        omega
    exact hp.map rowConv fun a b hab => by
      simp only [regDescLe, decide_eq_true_eq] at hab
      exact hab
  · intro x
    rw [List.mem_map]
    unfold sqlSelectDesc
    constructor
    · rintro ⟨r, hr, rfl⟩
      rw [List.mem_mergeSort, List.mem_filter] at hr
      exact ⟨r, hr.1, hr.2, rfl⟩
    · rintro ⟨r, hr, hc, rfl⟩
      exact ⟨r, by rw [List.mem_mergeSort, List.mem_filter]; exact ⟨hr, hc⟩, rfl⟩

/-- Sample rows for the `get_all` witness: two in network 3 (registered at
1 and 2), one in network 99. -/
def rowA : DaemonRow :=
  { id := 21, host_id := 22, ip := "7", port := 80, last_seen := 0,
    registered_at := 1, network_id := 3, api_key := "key-p" }

def rowB : DaemonRow :=
  { id := 23, host_id := 24, ip := "8", port := 81, last_seen := 0,
    registered_at := 2, network_id := 3, api_key := "key-q" }

def rowC : DaemonRow :=
  { id := 25, host_id := 26, ip := "9", port := 82, last_seen := 0,
    registered_at := 3, network_id := 99, api_key := "key-r" }

/-- C7 witness. -/
theorem C7_witness :
    ∃ ds, get_all [rowA, rowB, rowC] [3] = some (.ok ds)
      ∧ ds.Perm (([rowA, rowB, rowC].filter
          fun r => [3].contains r.network_id).map rowConv)
      ∧ List.Pairwise (fun a b => b.registered_at ≤ a.registered_at) ds
      ∧ ∀ x : Daemon, x ∈ ds ↔
          ∃ r ∈ [rowA, rowB, rowC], [3].contains r.network_id = true
            ∧ x = rowConv r :=
  C7_get_all_filter_sorted [rowA, rowB, rowC] [3] (by decide)

end Netvisor
